import Mathlib

/-!
Verification of the odds-computation and validation logic of the betting
platform (sources: `api_neural_network.py` and `app.py`).

The numeric core (lines 246-252 of `api_neural_network.py`) runs on numpy
floating-point arrays.  We model a float as an exact rational extended with
the IEEE special values `inf`, `-inf` and `nan`, which is exactly what the
source can produce on its inputs: numpy's elementwise `1/x` does not raise
on a zero component, it yields `inf` (with a warning only).  Rounding is
idealised away (the spec states all numeric properties up to floating
tolerance); the special-value propagation rules below follow IEEE-754 /
numpy semantics.
-/

namespace Apuestas

/-- A numpy scalar value: an exact rational, `inf`, `-inf` or `nan`. -/
inductive PyFloat where
  | fin (q : ℚ)
  | inf
  | ninf
  | nan
deriving DecidableEq, Repr

namespace PyFloat

/-- Negation of a numpy scalar. -/
def pyNeg : PyFloat → PyFloat
  | fin q => fin (-q)
  | inf => ninf
  | ninf => inf
  | nan => nan

/-- Addition of numpy scalars (IEEE: `inf + (-inf) = nan`, `nan` absorbs). -/
def pyAdd : PyFloat → PyFloat → PyFloat
  | nan, _ => nan
  | _, nan => nan
  | fin a, fin b => fin (a + b)
  | fin _, inf => inf
  | fin _, ninf => ninf
  | inf, fin _ => inf
  | ninf, fin _ => ninf
  | inf, inf => inf
  | inf, ninf => nan
  | ninf, inf => nan
  | ninf, ninf => ninf

/-- Subtraction of numpy scalars. -/
def pySub (x y : PyFloat) : PyFloat := pyAdd x (pyNeg y)

/-- Multiplication of numpy scalars (IEEE: `inf * 0 = nan`, signs propagate). -/
def pyMul : PyFloat → PyFloat → PyFloat
  | nan, _ => nan
  | _, nan => nan
  | fin a, fin b => fin (a * b)
  | fin a, inf => if 0 < a then inf else if a < 0 then ninf else nan
  | fin a, ninf => if 0 < a then ninf else if a < 0 then inf else nan
  | inf, fin b => if 0 < b then inf else if b < 0 then ninf else nan
  | ninf, fin b => if 0 < b then ninf else if b < 0 then inf else nan
  | inf, inf => inf
  | inf, ninf => ninf
  | ninf, inf => ninf
  | ninf, ninf => inf

/-- Reciprocal of a numpy scalar: numpy evaluates `1/0.0` to `inf`
(emitting a runtime warning, not an exception) and `1/±inf` to `±0.0`. -/
def pyRecip : PyFloat → PyFloat
  | fin q => if q = 0 then inf else fin q⁻¹
  | inf => fin 0
  | ninf => fin 0
  | nan => nan

/-- Strict `<` comparison of numpy scalars (`nan` compares false). -/
def pyLt : PyFloat → PyFloat → Bool
  | fin a, fin b => a < b
  | fin _, inf => true
  | ninf, fin _ => true
  | ninf, inf => true
  | _, _ => false

@[simp] theorem pyAdd_fin_fin (a b : ℚ) : pyAdd (fin a) (fin b) = fin (a + b) := rfl

@[simp] theorem pyMul_fin_fin (a b : ℚ) : pyMul (fin a) (fin b) = fin (a * b) := rfl

@[simp] theorem pySub_fin_fin (a b : ℚ) : pySub (fin a) (fin b) = fin (a - b) := by
  simp [pySub, pyNeg, pyAdd, sub_eq_add_neg]

theorem pyRecip_fin_of_ne {a : ℚ} (h : a ≠ 0) : pyRecip (fin a) = fin a⁻¹ := by
  simp [pyRecip, h]

@[simp] theorem pyLt_fin_fin (a b : ℚ) : pyLt (fin a) (fin b) = decide (a < b) := rfl

end PyFloat

open PyFloat

/-- An ordered triple of numpy scalars, one per outcome
(home win, draw, away win) — the shape of the arrays `probabilities`,
`fair_odds` and `odds` in `NeuralNetworkAPI.predict`. -/
structure PyVec3 where
  home : PyFloat
  draw : PyFloat
  away : PyFloat
deriving DecidableEq, Repr

/-- Embed a rational triple as a vector of finite floats. -/
def PyVec3.ofRat (a b c : ℚ) : PyVec3 := ⟨fin a, fin b, fin c⟩

/-- Line 246 of `api_neural_network.py`: `fair_odds = 1 / probabilities`
(numpy elementwise reciprocal; no guard against zero components). -/
def computeFairOdds (p : PyVec3) : PyVec3 :=
  ⟨pyRecip p.home, pyRecip p.draw, pyRecip p.away⟩

/-- Line 247: `odds = fair_odds * (1 - house_margin)` (numpy elementwise
scaling by the finite scalar `1 - house_margin`; no validation of the
margin anywhere in the source). -/
def applyHouseMargin (fair_odds : PyVec3) (house_margin : ℚ) : PyVec3 :=
  ⟨pyMul fair_odds.home (fin (1 - house_margin)),
   pyMul fair_odds.draw (fin (1 - house_margin)),
   pyMul fair_odds.away (fin (1 - house_margin))⟩

/-- The derived margin metrics of lines 250-252. -/
structure MarginReport where
  implied_prob_sum : PyFloat
  actual_margin : PyFloat
  house_edge : PyFloat
deriving DecidableEq, Repr

/-- Lines 250-252:
`implied_prob_sum = sum(1/odd for odd in odds)` (Python `sum` starts at 0
and folds left over home, draw, away),
`actual_margin = (implied_prob_sum - 1) * 100`,
`house_edge = actual_margin`. -/
def computeMarginReport (odds : PyVec3) : MarginReport :=
  let implied_prob_sum :=
    pyAdd (pyAdd (pyAdd (fin 0) (pyRecip odds.home)) (pyRecip odds.draw)) (pyRecip odds.away)
  let actual_margin := pyMul (pySub implied_prob_sum (fin 1)) (fin 100)
  { implied_prob_sum := implied_prob_sum
    actual_margin := actual_margin
    house_edge := actual_margin }

/-- Evaluation of the fair-odds step on finite, nonzero probabilities. -/
theorem computeFairOdds_eval {a b c : ℚ} (ha : a ≠ 0) (hb : b ≠ 0) (hc : c ≠ 0) :
    computeFairOdds (PyVec3.ofRat a b c) = PyVec3.ofRat a⁻¹ b⁻¹ c⁻¹ := by
  simp [computeFairOdds, PyVec3.ofRat, pyRecip_fin_of_ne, ha, hb, hc]

/-- Evaluation of the margin step on finite fair odds. -/
theorem applyHouseMargin_eval (a b c m : ℚ) :
    applyHouseMargin (PyVec3.ofRat a b c) m =
      PyVec3.ofRat (a * (1 - m)) (b * (1 - m)) (c * (1 - m)) := by
  simp [applyHouseMargin, PyVec3.ofRat]

/-- Full evaluation of the numeric pipeline of lines 246-252 on finite,
strictly positive probabilities and a margin below 1: the implied
probability sum is `(a+b+c)/(1-m)` and both margin metrics are
`((a+b+c)/(1-m) - 1) * 100`. -/
theorem computeMarginReport_eval {a b c m : ℚ}
    (ha : 0 < a) (hb : 0 < b) (hc : 0 < c) (hm : m ≠ 1) :
    computeMarginReport (applyHouseMargin (computeFairOdds (PyVec3.ofRat a b c)) m) =
      { implied_prob_sum := fin ((a + b + c) / (1 - m))
        actual_margin := fin (((a + b + c) / (1 - m) - 1) * 100)
        house_edge := fin (((a + b + c) / (1 - m) - 1) * 100) } := by
  have h1m : (1 : ℚ) - m ≠ 0 := sub_ne_zero.mpr (Ne.symm hm)
  have hoa : a⁻¹ * (1 - m) ≠ 0 := mul_ne_zero (inv_ne_zero ha.ne') h1m
  have hob : b⁻¹ * (1 - m) ≠ 0 := mul_ne_zero (inv_ne_zero hb.ne') h1m
  have hoc : c⁻¹ * (1 - m) ≠ 0 := mul_ne_zero (inv_ne_zero hc.ne') h1m
  rw [computeFairOdds_eval ha.ne' hb.ne' hc.ne', applyHouseMargin_eval]
  simp only [computeMarginReport, PyVec3.ofRat, pyRecip_fin_of_ne, hoa, hob, hoc,
    pyAdd_fin_fin, pySub_fin_fin, pyMul_fin_fin, ne_eq, not_false_iff]
  have key : (a⁻¹ * (1 - m))⁻¹ + (b⁻¹ * (1 - m))⁻¹ + (c⁻¹ * (1 - m))⁻¹ =
      (a + b + c) / (1 - m) := by
    field_simp
  simp only [zero_add, key]

/-! ## Validation layer: `NeuralNetworkAPI.predict` and the Flask `api_predict` -/

/-- `listStarts xs ys` : the list `ys` begins with the run `xs`. -/
def listStarts : List Char → List Char → Bool
  | [], _ => true
  | _ :: _, [] => false
  | a :: as, b :: bs => a == b && listStarts as bs

/-- `listHasSub needle hay` : `needle` occurs contiguously inside `hay` —
the semantics of Python's `in` operator on strings. -/
def listHasSub (needle : List Char) : List Char → Bool
  | [] => listStarts needle []
  | b :: bs => listStarts needle (b :: bs) || listHasSub needle bs

/-- Python `s.lower()`, on the character list of a string (strings are
modelled by their character lists throughout). -/
def lowerChars (s : String) : List Char := s.data.map Char.toLower

/-- `NeuralNetworkAPI.find_similar_teams` (lines 180-186): the registry
teams whose lowercased name contains the lowercased query; returns `[]`
when the registry is empty. -/
def find_similar_teams (available_teams : List String) (team_name : String) : List String :=
  if available_teams.isEmpty then []
  else
    let team_name_lower := lowerChars team_name
    available_teams.filter (fun team => listHasSub team_name_lower (lowerChars team))

/-- The static league table of `NeuralNetworkAPI.__init__` (lines 72-111). -/
def league_mapping : List (String × String) :=
  [("ARG", "Primera Division Argentina"),
   ("AUT", "Liga de Austria"),
   ("B1", "Belgian Pro League"),
   ("BRA", "Brasileirao"),
   ("CHN", "Liga China"),
   ("D1", "Bundesliga (Alemania)"),
   ("D2", "Bundesliga 2 (Alemania)"),
   ("DEN", "Liga Dinamarca"),
   ("E0", "Premier League (Inglaterra)"),
   ("E1", "English League Championship"),
   ("E2", "English League One"),
   ("E3", "English League Two"),
   ("EC", "National League (5ta División Inglaterra)"),
   ("F1", "Ligue 1 (Francia)"),
   ("F2", "Ligue 2 (Francia)"),
   ("FIN", "Liga Finlandia"),
   ("G1", "Liga Grecia"),
   ("I1", "Serie A (Italia)"),
   ("I2", "Serie B (Italia)"),
   ("IRL", "Liga Irlanda"),
   ("JAP", "Liga Japonesa"),
   ("MEX", "Liga MX (México)"),
   ("N1", "Eredivisie (Países Bajos)"),
   ("NOR", "Liga Noruega"),
   ("P1", "Primeira Liga (Portugal)"),
   ("POL", "Liga Polonia"),
   ("ROM", "Liga Rumania"),
   ("RUS", "Liga Rusa"),
   ("SC0", "Scottish Premiership"),
   ("SC1", "Segunda Division Escocia"),
   ("SC2", "Tercera Division Escocia"),
   ("SC3", "Cuarta Division Escocia"),
   ("SP1", "La Liga (España)"),
   ("SP2", "La Liga 2 (España)"),
   ("SUI", "Liga de Suiza"),
   ("SWE", "Liga de Suecia"),
   ("T1", "Liga de Turquia"),
   ("USA", "Major League Soccer (USA/Canadá)")]

/-- `NeuralNetworkAPI.get_division_full_name` (lines 188-189):
`self.league_mapping.get(division_abbr, division_abbr)`. -/
def get_division_full_name (division_abbr : String) : String :=
  match league_mapping.lookup division_abbr with
  | some name => name
  | none => division_abbr

/-- The registries loaded from the pickled encoders (external data, lines
154-158): team and division dicts (association lists in declaration order)
and the team list used for suggestions. -/
structure NeuralNetworkAPI where
  is_loaded : Bool
  team_mapping : List (String × Int)
  division_mapping : List (String × Int)
  available_teams : List String
deriving DecidableEq, Repr

/-- The failure modes of `NeuralNetworkAPI.predict`, one per raise site;
each payload is the data interpolated into the `detail` message there. -/
inductive PredictError where
  /-- 503, line 203: model not loaded. -/
  | serviceUnavailable
  /-- 400, lines 206-211: home team not in the registry; the message embeds
  `similar[:3]`. -/
  | unknownHomeTeam (team : String) (suggestions : List String)
  /-- 400, lines 213-218: away team not in the registry. -/
  | unknownAwayTeam (team : String) (suggestions : List String)
  /-- 400, lines 220-225: division not in the registry; the message embeds
  `available_divs[:10]`. -/
  | unknownDivision (division : String) (shownDivisions : List String)
  /-- 500, lines 273-274: an exception inside the try block.  Unreachable
  for the numeric core: numpy elementwise division raises no exception on a
  zero component. -/
  | predictionError
deriving DecidableEq, Repr

/-- The success payload of `NeuralNetworkAPI.predict` (lines 254-271). -/
structure PredictionResult where
  home_team : String
  away_team : String
  division_full_name : String
  probabilities : PyVec3
  odds : PyVec3
  house_margin : ℚ
  actual_margin : PyFloat
  house_edge : PyFloat
deriving DecidableEq, Repr

/-- `NeuralNetworkAPI.predict` (lines 200-274).  The classifier inference
(lines 229-243) is the out-of-scope probability source: its output vector
`probabilities` is taken as an argument, as are `house_margin` (line 200;
never validated anywhere in the source) — `year` and `month` feed only the
external model features and are dropped. -/
def predict (api : NeuralNetworkAPI) (home_team away_team division : String)
    (probabilities : PyVec3) (house_margin : ℚ) : Except PredictError PredictionResult :=
  if api.is_loaded = false then .error .serviceUnavailable
  else if (api.team_mapping.lookup home_team).isNone then
    .error (.unknownHomeTeam home_team ((find_similar_teams api.available_teams home_team).take 3))
  else if (api.team_mapping.lookup away_team).isNone then
    .error (.unknownAwayTeam away_team ((find_similar_teams api.available_teams away_team).take 3))
  else if (api.division_mapping.lookup division).isNone then
    .error (.unknownDivision division ((api.division_mapping.map Prod.fst).take 10))
  else
    let fair_odds := computeFairOdds probabilities
    let odds := applyHouseMargin fair_odds house_margin
    let report := computeMarginReport odds
    .ok { home_team := home_team
          away_team := away_team
          division_full_name := get_division_full_name division
          probabilities := probabilities
          odds := odds
          house_margin := house_margin
          actual_margin := report.actual_margin
          house_edge := report.house_edge }

/-- The failure modes of the Flask endpoint `api_predict` (`app.py` lines
990-1038).  Any error response of the neural-network service is collapsed
by `APIClient.predict_match` (lines 148-165) into `None`, which
`api_predict` reports as the generic unavailable message. -/
inductive ApiError where
  /-- line 998: a required field is missing or empty (Python falsiness). -/
  | missingData
  /-- line 1006: `data['home_team'] == data['away_team']`. -/
  | identicalTeams
  /-- lines 1027-1031: the prediction call did not return a 200 payload. -/
  | unavailable
deriving DecidableEq, Repr

/-- The Flask endpoint `api_predict` (`app.py` lines 990-1031) composed
with the prediction service it proxies: required-fields check, equality
check, then `NeuralNetworkAPI.predict`. -/
def api_predict (api : NeuralNetworkAPI) (home_team away_team division : String)
    (probabilities : PyVec3) (house_margin : ℚ) : Except ApiError PredictionResult :=
  if home_team = "" ∨ away_team = "" ∨ division = "" then .error .missingData
  else if home_team = away_team then .error .identicalTeams
  else
    match predict api home_team away_team division probabilities house_margin with
    | .ok r => .ok r
    | .error _ => .error .unavailable

/-- `listStarts` decides the begins-with relation. -/
theorem listStarts_iff (xs ys : List Char) :
    listStarts xs ys = true ↔ ∃ r, ys = xs ++ r := by
  induction xs generalizing ys with
  | nil => simp [listStarts]
  | cons a as ih =>
    cases ys with
    | nil => simp [listStarts]
    | cons b bs =>
      simp only [listStarts, Bool.and_eq_true, beq_iff_eq, ih, List.cons_append,
        List.cons.injEq]
      constructor
      · rintro ⟨rfl, r, rfl⟩
        exact ⟨r, rfl, rfl⟩
      · rintro ⟨r, rfl, rfl⟩
        exact ⟨rfl, r, rfl⟩

/-- `listHasSub` decides the contiguous-substring relation. -/
theorem listHasSub_iff (needle hay : List Char) :
    listHasSub needle hay = true ↔ ∃ l r, hay = l ++ needle ++ r := by
  induction hay with
  | nil =>
    simp only [listHasSub, listStarts_iff]
    constructor
    · rintro ⟨r, hr⟩
      exact ⟨[], r, by simpa using hr⟩
    · rintro ⟨l, r, hr⟩
      refine ⟨r, ?_⟩
      rcases List.append_eq_nil.mp ((List.append_assoc l needle r ▸ hr).symm) with ⟨h1, h2⟩
      rcases List.append_eq_nil.mp h2 with ⟨h3, h4⟩
      simp [h1, h3, h4]
  | cons b bs ih =>
    simp only [listHasSub, Bool.or_eq_true, listStarts_iff, ih]
    constructor
    · rintro (⟨r, hr⟩ | ⟨l, r, hr⟩)
      · exact ⟨[], r, by simpa using hr⟩
      · exact ⟨b :: l, r, by simp [hr]⟩
    · rintro ⟨l, r, hr⟩
      cases l with
      | nil => exact Or.inl ⟨r, by simpa using hr⟩
      | cons x xs =>
        right
        have h : b :: bs = x :: (xs ++ needle ++ r) := by simpa using hr
        injection h with h1 h2
        exact ⟨xs, r, h2⟩

/-- The empty-registry guard of `find_similar_teams` is redundant: the
function is the filter in all cases. -/
theorem find_similar_teams_eq_filter (available_teams : List String) (team_name : String) :
    find_similar_teams available_teams team_name =
      available_teams.filter
        (fun team => listHasSub (lowerChars team_name) (lowerChars team)) := by
  cases available_teams <;> simp [find_similar_teams]

/-- Unfolding of `predict` on the success path. -/
theorem predict_eq_ok (api : NeuralNetworkAPI) (home away division : String)
    (p : PyVec3) (m : ℚ) (hl : api.is_loaded = true)
    (hh : api.team_mapping.lookup home ≠ none)
    (ha : api.team_mapping.lookup away ≠ none)
    (hd : api.division_mapping.lookup division ≠ none) :
    predict api home away division p m = .ok
      { home_team := home
        away_team := away
        division_full_name := get_division_full_name division
        probabilities := p
        odds := applyHouseMargin (computeFairOdds p) m
        house_margin := m
        actual_margin :=
          (computeMarginReport (applyHouseMargin (computeFairOdds p) m)).actual_margin
        house_edge :=
          (computeMarginReport (applyHouseMargin (computeFairOdds p) m)).house_edge } := by
  simp [predict, hl, Option.isNone_iff_eq_none, hh, ha, hd]

/-- Unfolding of `predict` on the unknown-home-team path. -/
theorem predict_eq_unknownHome (api : NeuralNetworkAPI) (home away division : String)
    (p : PyVec3) (m : ℚ) (hl : api.is_loaded = true)
    (hh : api.team_mapping.lookup home = none) :
    predict api home away division p m =
      .error (.unknownHomeTeam home ((find_similar_teams api.available_teams home).take 3)) := by
  simp [predict, hl, Option.isNone_iff_eq_none, hh]

/-- Unfolding of `predict` on the unknown-away-team path. -/
theorem predict_eq_unknownAway (api : NeuralNetworkAPI) (home away division : String)
    (p : PyVec3) (m : ℚ) (hl : api.is_loaded = true)
    (hh : api.team_mapping.lookup home ≠ none)
    (ha : api.team_mapping.lookup away = none) :
    predict api home away division p m =
      .error (.unknownAwayTeam away ((find_similar_teams api.available_teams away).take 3)) := by
  simp [predict, hl, Option.isNone_iff_eq_none, hh, ha]

/-- Unfolding of `predict` on the unknown-division path. -/
theorem predict_eq_unknownDivision (api : NeuralNetworkAPI) (home away division : String)
    (p : PyVec3) (m : ℚ) (hl : api.is_loaded = true)
    (hh : api.team_mapping.lookup home ≠ none)
    (ha : api.team_mapping.lookup away ≠ none)
    (hd : api.division_mapping.lookup division = none) :
    predict api home away division p m =
      .error (.unknownDivision division ((api.division_mapping.map Prod.fst).take 10)) := by
  simp [predict, hl, Option.isNone_iff_eq_none, hh, ha, hd]

/-- A sample loaded registry used to instantiate the claims on concrete
inputs. -/
def sampleApi : NeuralNetworkAPI :=
  { is_loaded := true
    team_mapping := [("Real Madrid", 0), ("Barcelona", 1)]
    division_mapping := [("SP1", 0)]
    available_teams := ["Real Madrid", "Barcelona"] }

/-- A loaded registry with eleven divisions, exercising the truncation of
the division list in the unknown-division error. -/
def elevenDivApi : NeuralNetworkAPI :=
  { is_loaded := true
    team_mapping := [("Real Madrid", 0), ("Barcelona", 1)]
    division_mapping :=
      [("D01", 0), ("D02", 1), ("D03", 2), ("D04", 3), ("D05", 4), ("D06", 5),
       ("D07", 6), ("D08", 7), ("D09", 8), ("D10", 9), ("D11", 10)]
    available_teams := ["Real Madrid", "Barcelona"] }

/-! ## The claims -/

/-- C1: for every probability vector with strictly positive components,
`computeFairOdds` returns exactly the componentwise reciprocals; at
p = (1/3, 1/3, 1/3) and margin 0.12 the fair odds are (3, 3, 3), the
bookmaker odds are (2.64, 2.64, 2.64), the implied probability sum is
25/22, within 10⁻⁴ of 1.1364, and the actual margin percentage is 150/11,
within 10⁻² of 13.64. -/
theorem C1_fair_odds_are_reciprocals :
    (∀ a b c : ℚ, 0 < a → 0 < b → 0 < c →
      computeFairOdds (PyVec3.ofRat a b c) = PyVec3.ofRat a⁻¹ b⁻¹ c⁻¹) ∧
    computeFairOdds (PyVec3.ofRat (1/3) (1/3) (1/3)) = PyVec3.ofRat 3 3 3 ∧
    applyHouseMargin (PyVec3.ofRat 3 3 3) (12/100) =
      PyVec3.ofRat (264/100) (264/100) (264/100) ∧
    (computeMarginReport (applyHouseMargin
        (computeFairOdds (PyVec3.ofRat (1/3) (1/3) (1/3))) (12/100))).implied_prob_sum =
      .fin (25/22) ∧
    |(25/22 : ℚ) - 11364/10000| < 1/10000 ∧
    (computeMarginReport (applyHouseMargin
        (computeFairOdds (PyVec3.ofRat (1/3) (1/3) (1/3))) (12/100))).actual_margin =
      .fin (150/11) ∧
    |(150/11 : ℚ) - 1364/100| < 1/100 := by
  have hrep := computeMarginReport_eval (a := 1/3) (b := 1/3) (c := 1/3) (m := 12/100)
    (by norm_num) (by norm_num) (by norm_num) (by norm_num)
  refine ⟨?_, ?_, ?_, ?_, by rw [abs_lt]; constructor <;> norm_num, ?_,
    by rw [abs_lt]; constructor <;> norm_num⟩
  · intro a b c ha hb hc
    exact computeFairOdds_eval ha.ne' hb.ne' hc.ne'
  · rw [computeFairOdds_eval (by norm_num) (by norm_num) (by norm_num)]
    norm_num [PyVec3.ofRat]
  · rw [applyHouseMargin_eval]
    norm_num [PyVec3.ofRat]
  · rw [hrep]
    norm_num
  · rw [hrep]
    norm_num

/-- Witness for C1: instantiating the universal part at (1/2, 1/4, 1/4). -/
theorem C1_fair_odds_are_reciprocals_witness :
    computeFairOdds (PyVec3.ofRat (1/2) (1/4) (1/4)) = PyVec3.ofRat 2 4 4 := by
  have h := C1_fair_odds_are_reciprocals.1 (1/2) (1/4) (1/4)
    (by norm_num) (by norm_num) (by norm_num)
  rw [h]
  norm_num [PyVec3.ofRat]

/-- C2: `applyHouseMargin` multiplies each component by exactly
`1 - margin`; at margin 0 it is the identity on every vector (including
vectors holding special values), and for a margin in (0,1) every output
component is strictly below the corresponding positive fair-odds
component. -/
theorem C2_house_margin_flat_scaling :
    (∀ a b c m : ℚ, applyHouseMargin (PyVec3.ofRat a b c) m =
      PyVec3.ofRat (a * (1 - m)) (b * (1 - m)) (c * (1 - m))) ∧
    (∀ v : PyVec3, applyHouseMargin v 0 = v) ∧
    (∀ a b c m : ℚ, 0 < a → 0 < b → 0 < c → 0 < m → m < 1 →
      pyLt (applyHouseMargin (PyVec3.ofRat a b c) m).home (.fin a) = true ∧
      pyLt (applyHouseMargin (PyVec3.ofRat a b c) m).draw (.fin b) = true ∧
      pyLt (applyHouseMargin (PyVec3.ofRat a b c) m).away (.fin c) = true) := by
  have mulone : ∀ x : PyFloat, pyMul x (.fin 1) = x := by
    intro x
    cases x <;> norm_num [pyMul]
  have shrink : ∀ a m : ℚ, 0 < a → 0 < m → m < 1 → a * (1 - m) < a := by
    intro a m ha hm hm1
    nlinarith [mul_pos ha hm]
  refine ⟨fun a b c m => applyHouseMargin_eval a b c m, ?_, ?_⟩
  · rintro ⟨h, d, a⟩
    simp only [applyHouseMargin, sub_zero, mulone]
  · intro a b c m ha hb hc hm hm1
    rw [applyHouseMargin_eval]
    simp only [PyVec3.ofRat, pyLt_fin_fin, decide_eq_true_eq]
    exact ⟨shrink a m ha hm hm1, shrink b m hb hm hm1, shrink c m hc hm hm1⟩

/-- Witness for C2: strict shrinkage at fair odds (3, 3, 3) and margin
0.12. -/
theorem C2_house_margin_flat_scaling_witness :
    pyLt (applyHouseMargin (PyVec3.ofRat 3 3 3) (12/100)).home (.fin 3) = true ∧
    pyLt (applyHouseMargin (PyVec3.ofRat 3 3 3) (12/100)).draw (.fin 3) = true ∧
    pyLt (applyHouseMargin (PyVec3.ofRat 3 3 3) (12/100)).away (.fin 3) = true :=
  C2_house_margin_flat_scaling.2.2 3 3 3 (12/100)
    (by norm_num) (by norm_num) (by norm_num) (by norm_num) (by norm_num)

/-- C3: the claimed `InvalidProbability` guard does not exist.  On
probabilities (0.5, 0.5, 0.0) with valid teams and division, `predict`
raises nothing: numpy's elementwise `1/0.0` yields `inf` (a warning, not
an exception), so the call returns a success payload whose away odds are
infinite. -/
theorem C3_zero_probability_returns_success :
    predict sampleApi "Real Madrid" "Barcelona" "SP1"
        ⟨.fin (1/2), .fin (1/2), .fin 0⟩ (12/100) =
      .ok { home_team := "Real Madrid"
            away_team := "Barcelona"
            division_full_name := "La Liga (España)"
            probabilities := ⟨.fin (1/2), .fin (1/2), .fin 0⟩
            odds := ⟨.fin (44/25), .fin (44/25), .inf⟩
            house_margin := 12/100
            actual_margin := .fin (150/11)
            house_edge := .fin (150/11) } := by
  have hdiv : get_division_full_name "SP1" = "La Liga (España)" := rfl
  have hodds : applyHouseMargin (computeFairOdds ⟨.fin (1/2), .fin (1/2), .fin 0⟩) (12/100) =
      ⟨.fin (44/25), .fin (44/25), .inf⟩ := by
    norm_num [computeFairOdds, applyHouseMargin, pyRecip, pyMul]
  have hrep : computeMarginReport (⟨.fin (44/25), .fin (44/25), .inf⟩ : PyVec3) =
      { implied_prob_sum := .fin (25/22)
        actual_margin := .fin (150/11)
        house_edge := .fin (150/11) } := by
    norm_num [computeMarginReport, pyRecip, pyAdd, pySub, pyNeg, pyMul]
  rw [predict_eq_ok sampleApi _ _ _ _ _ rfl (by decide) (by decide) (by decide),
    hodds, hrep, hdiv]

/-- C4: the claimed `InvalidMargin` guard does not exist: neither
`PredictionRequest` nor `predict` validates `house_margin`.  A margin of
1.5 is accepted and produces a success payload with negative odds, and a
margin of −0.5 is accepted and inflates the odds above the fair odds. -/
theorem C4_margin_not_validated :
    predict sampleApi "Real Madrid" "Barcelona" "SP1"
        (PyVec3.ofRat (1/3) (1/3) (1/3)) (3/2) =
      .ok { home_team := "Real Madrid"
            away_team := "Barcelona"
            division_full_name := "La Liga (España)"
            probabilities := PyVec3.ofRat (1/3) (1/3) (1/3)
            odds := PyVec3.ofRat (-(3/2)) (-(3/2)) (-(3/2))
            house_margin := 3/2
            actual_margin := .fin (-300)
            house_edge := .fin (-300) } ∧
    (-(3/2) : ℚ) < 0 ∧
    predict sampleApi "Real Madrid" "Barcelona" "SP1"
        (PyVec3.ofRat (1/3) (1/3) (1/3)) (-(1/2)) =
      .ok { home_team := "Real Madrid"
            away_team := "Barcelona"
            division_full_name := "La Liga (España)"
            probabilities := PyVec3.ofRat (1/3) (1/3) (1/3)
            odds := PyVec3.ofRat (9/2) (9/2) (9/2)
            house_margin := -(1/2)
            actual_margin := .fin (-(100/3))
            house_edge := .fin (-(100/3)) } := by
  have hdiv : get_division_full_name "SP1" = "La Liga (España)" := rfl
  have hfair : computeFairOdds (PyVec3.ofRat (1/3) (1/3) (1/3)) = PyVec3.ofRat 3 3 3 := by
    rw [computeFairOdds_eval (by norm_num) (by norm_num) (by norm_num)]
    norm_num [PyVec3.ofRat]
  refine ⟨?_, by norm_num, ?_⟩
  · have hrep := computeMarginReport_eval (a := 1/3) (b := 1/3) (c := 1/3) (m := 3/2)
      (by norm_num) (by norm_num) (by norm_num) (by norm_num)
    rw [predict_eq_ok sampleApi _ _ _ _ _ rfl (by decide) (by decide) (by decide),
      hrep, hdiv, hfair, applyHouseMargin_eval]
    norm_num [PyVec3.ofRat]
  · have hrep := computeMarginReport_eval (a := 1/3) (b := 1/3) (c := 1/3) (m := -(1/2))
      (by norm_num) (by norm_num) (by norm_num) (by norm_num)
    rw [predict_eq_ok sampleApi _ _ _ _ _ rfl (by decide) (by decide) (by decide),
      hrep, hdiv, hfair, applyHouseMargin_eval]
    norm_num [PyVec3.ofRat]

/-- C5 counterexample: the pipeline checks team equality before resolving
any team — with the identical, unresolvable name "Raal Madrid" on both
sides and a valid division it fails with the identical-teams error, not
with an unknown-team error as a teams-first order would require. -/
theorem C5_counterexample :
    List.lookup "Raal Madrid" sampleApi.team_mapping = none ∧
    api_predict sampleApi "Raal Madrid" "Raal Madrid" "SP1"
        (PyVec3.ofRat (1/3) (1/3) (1/3)) (12/100) = .error .identicalTeams :=
  ⟨rfl, rfl⟩

set_option linter.unusedVariables false in
/-- C5 (amended): the required-fields and equality checks run in the
dashboard layer before any registry resolution; the prediction service
then resolves home team, away team and division in that order, and itself
performs no equality check, so identical team names fail with
`identicalTeams` regardless of whether they resolve, while identical valid
teams pass the service-level validation. -/
theorem C5_validation_order (api : NeuralNetworkAPI) (home away division : String)
    (p : PyVec3) (m : ℚ) (hl : api.is_loaded = true)
    (hh : home ≠ "") (ha : away ≠ "") (hd : division ≠ "") :
    (home = away →
      api_predict api home away division p m = .error .identicalTeams) ∧
    (api.team_mapping.lookup home = none →
      predict api home away division p m =
        .error (.unknownHomeTeam home
          ((find_similar_teams api.available_teams home).take 3))) ∧
    (api.team_mapping.lookup home ≠ none → api.team_mapping.lookup away = none →
      predict api home away division p m =
        .error (.unknownAwayTeam away
          ((find_similar_teams api.available_teams away).take 3))) ∧
    (api.team_mapping.lookup home ≠ none → api.team_mapping.lookup away ≠ none →
      api.division_mapping.lookup division = none →
      predict api home away division p m =
        .error (.unknownDivision division
          ((api.division_mapping.map Prod.fst).take 10))) ∧
    (api.team_mapping.lookup home ≠ none → api.division_mapping.lookup division ≠ none →
      ∃ r, predict api home home division p m = .ok r) := by
  refine ⟨?_, ?_, ?_, ?_, ?_⟩
  · intro heq
    simp [api_predict, hh, ha, hd, heq]
  · intro hnone
    exact predict_eq_unknownHome api home away division p m hl hnone
  · intro hsome hnone
    exact predict_eq_unknownAway api home away division p m hl hsome hnone
  · intro hsome1 hsome2 hnone
    exact predict_eq_unknownDivision api home away division p m hl hsome1 hsome2 hnone
  · intro hsome hdiv2
    exact ⟨_, predict_eq_ok api home home division p m hl hsome hsome hdiv2⟩

/-- Witness for C5 (amended): identical valid team names in a valid
division fail with the identical-teams error at the dashboard layer. -/
theorem C5_validation_order_witness :
    api_predict sampleApi "Real Madrid" "Real Madrid" "SP1"
        (PyVec3.ofRat (1/3) (1/3) (1/3)) (12/100) = .error .identicalTeams :=
  (C5_validation_order sampleApi "Real Madrid" "Real Madrid" "SP1"
    (PyVec3.ofRat (1/3) (1/3) (1/3)) (12/100) rfl
    (by decide) (by decide) (by decide)).1 rfl

/-- C6 counterexample: a valid input (positive components summing to 1,
margin in [0,1)) whose returned bookmaker odds are not all above 1 — a
strong favourite with p = 0.9 at margin 0.12 gets odds 44/45 < 1. -/
theorem C6_counterexample :
    ((0:ℚ) < 9/10 ∧ (0:ℚ) < 1/20 ∧ (9/10 : ℚ) + 1/20 + 1/20 = 1 ∧
      (0:ℚ) ≤ 12/100 ∧ (12/100 : ℚ) < 1) ∧
    predict sampleApi "Real Madrid" "Barcelona" "SP1"
        (PyVec3.ofRat (9/10) (1/20) (1/20)) (12/100) =
      .ok { home_team := "Real Madrid"
            away_team := "Barcelona"
            division_full_name := "La Liga (España)"
            probabilities := PyVec3.ofRat (9/10) (1/20) (1/20)
            odds := PyVec3.ofRat (44/45) (88/5) (88/5)
            house_margin := 12/100
            actual_margin := .fin (150/11)
            house_edge := .fin (150/11) } ∧
    (44/45 : ℚ) < 1 := by
  have hdiv : get_division_full_name "SP1" = "La Liga (España)" := rfl
  have hfair : computeFairOdds (PyVec3.ofRat (9/10) (1/20) (1/20)) =
      PyVec3.ofRat (10/9) 20 20 := by
    rw [computeFairOdds_eval (by norm_num) (by norm_num) (by norm_num)]
    norm_num [PyVec3.ofRat]
  have hrep := computeMarginReport_eval (a := 9/10) (b := 1/20) (c := 1/20) (m := 12/100)
    (by norm_num) (by norm_num) (by norm_num) (by norm_num)
  refine ⟨by norm_num, ?_, by norm_num⟩
  rw [predict_eq_ok sampleApi _ _ _ _ _ rfl (by decide) (by decide) (by decide),
    hrep, hdiv, hfair, applyHouseMargin_eval]
  norm_num [PyVec3.ofRat]

set_option linter.unusedVariables false in
/-- C6 (amended): the returned bookmaker odds exceed 1 exactly under the
extra hypothesis that each probability component is below `1 - margin`
(the flat shrink gives odds `(1-m)/p`, which reaches 1 or below whenever a
component reaches `1 - margin`). -/
theorem C6_odds_exceed_one (a b c m : ℚ) (ha : 0 < a) (hb : 0 < b) (hc : 0 < c)
    (hm0 : 0 ≤ m) (hm1 : m < 1) (hsum : a + b + c = 1)
    (hba : a < 1 - m) (hbb : b < 1 - m) (hbc : c < 1 - m) :
    pyLt (.fin 1) (applyHouseMargin (computeFairOdds (PyVec3.ofRat a b c)) m).home = true ∧
    pyLt (.fin 1) (applyHouseMargin (computeFairOdds (PyVec3.ofRat a b c)) m).draw = true ∧
    pyLt (.fin 1) (applyHouseMargin (computeFairOdds (PyVec3.ofRat a b c)) m).away = true := by
  have key : ∀ x : ℚ, 0 < x → x < 1 - m → (1 : ℚ) < x⁻¹ * (1 - m) := by
    intro x hx hlt
    calc (1 : ℚ) = x⁻¹ * x := (inv_mul_cancel₀ hx.ne').symm
      _ < x⁻¹ * (1 - m) := mul_lt_mul_of_pos_left hlt (inv_pos.mpr hx)
  rw [computeFairOdds_eval ha.ne' hb.ne' hc.ne', applyHouseMargin_eval]
  simp only [PyVec3.ofRat, pyLt_fin_fin, decide_eq_true_eq]
  exact ⟨key a ha hba, key b hb hbb, key c hc hbc⟩

/-- Witness for C6 (amended): at p = (1/3, 1/3, 1/3) and margin 0.12
every bookmaker odds component exceeds 1. -/
theorem C6_odds_exceed_one_witness :
    pyLt (.fin 1) (applyHouseMargin (computeFairOdds
      (PyVec3.ofRat (1/3) (1/3) (1/3))) (12/100)).home = true ∧
    pyLt (.fin 1) (applyHouseMargin (computeFairOdds
      (PyVec3.ofRat (1/3) (1/3) (1/3))) (12/100)).draw = true ∧
    pyLt (.fin 1) (applyHouseMargin (computeFairOdds
      (PyVec3.ofRat (1/3) (1/3) (1/3))) (12/100)).away = true :=
  C6_odds_exceed_one (1/3) (1/3) (1/3) (12/100) (by norm_num) (by norm_num)
    (by norm_num) (by norm_num) (by norm_num) (by norm_num) (by norm_num)
    (by norm_num) (by norm_num)

/-- C7: for a normalised probability vector with positive components, the
actual margin percentage is strictly positive for every margin in (0,1)
and strictly increasing in the margin. -/
theorem C7_actual_margin_positive_monotone (a b c m m1 m2 : ℚ)
    (ha : 0 < a) (hb : 0 < b) (hc : 0 < c) (hsum : a + b + c = 1) :
    (0 < m → m < 1 →
      pyLt (.fin 0) (computeMarginReport (applyHouseMargin
        (computeFairOdds (PyVec3.ofRat a b c)) m)).actual_margin = true) ∧
    (0 < m1 → m1 < m2 → m2 < 1 →
      pyLt
        (computeMarginReport (applyHouseMargin
          (computeFairOdds (PyVec3.ofRat a b c)) m1)).actual_margin
        (computeMarginReport (applyHouseMargin
          (computeFairOdds (PyVec3.ofRat a b c)) m2)).actual_margin = true) := by
  constructor
  · intro hm0 hm1
    rw [computeMarginReport_eval ha hb hc (ne_of_lt hm1)]
    simp only [hsum, pyLt_fin_fin, decide_eq_true_eq]
    have h1 : (0 : ℚ) < 1 - m := by linarith
    have h2 : (1 : ℚ) < (1 - m)⁻¹ := (one_lt_inv₀ h1).mpr (by linarith)
    rw [one_div]
    nlinarith
  · intro hm1' hlt hm2'
    rw [computeMarginReport_eval ha hb hc (ne_of_lt (by linarith)),
      computeMarginReport_eval ha hb hc (ne_of_lt hm2')]
    simp only [hsum, pyLt_fin_fin, decide_eq_true_eq]
    have h2 : (0 : ℚ) < 1 - m2 := by linarith
    have h3 : 1 / (1 - m1) < 1 / (1 - m2) :=
      one_div_lt_one_div_of_lt h2 (by linarith)
    linarith

/-- Witness for C7: at p = (1/3, 1/3, 1/3), positivity at margin 0.1 and
monotonicity between margins 0.1 and 0.2. -/
theorem C7_actual_margin_positive_monotone_witness :
    pyLt (.fin 0) (computeMarginReport (applyHouseMargin
      (computeFairOdds (PyVec3.ofRat (1/3) (1/3) (1/3))) (1/10))).actual_margin = true ∧
    pyLt
      (computeMarginReport (applyHouseMargin
        (computeFairOdds (PyVec3.ofRat (1/3) (1/3) (1/3))) (1/10))).actual_margin
      (computeMarginReport (applyHouseMargin
        (computeFairOdds (PyVec3.ofRat (1/3) (1/3) (1/3))) (2/10))).actual_margin = true := by
  have h := C7_actual_margin_positive_monotone (1/3) (1/3) (1/3) (1/10) (1/10) (2/10)
    (by norm_num) (by norm_num) (by norm_num) (by norm_num)
  exact ⟨h.1 (by norm_num) (by norm_num), h.2 (by norm_num) (by norm_num) (by norm_num)⟩

set_option linter.unusedVariables false in
/-- C8: in exact arithmetic the implied probability sum is
`(a+b+c)/(1-m)`; for a normalised vector the actual margin percentage is
`100·m/(1-m)`, independent of the individual probabilities, and
`house_edge` always equals `actual_margin`. -/
theorem C8_implied_sum_closed_form (a b c m : ℚ)
    (ha : 0 < a) (hb : 0 < b) (hc : 0 < c) (hm0 : 0 ≤ m) (hm1 : m < 1) :
    (computeMarginReport (applyHouseMargin
      (computeFairOdds (PyVec3.ofRat a b c)) m)).implied_prob_sum =
      .fin ((a + b + c) / (1 - m)) ∧
    (a + b + c = 1 →
      (computeMarginReport (applyHouseMargin
        (computeFairOdds (PyVec3.ofRat a b c)) m)).actual_margin =
        .fin (100 * m / (1 - m))) ∧
    (computeMarginReport (applyHouseMargin
      (computeFairOdds (PyVec3.ofRat a b c)) m)).house_edge =
      (computeMarginReport (applyHouseMargin
        (computeFairOdds (PyVec3.ofRat a b c)) m)).actual_margin := by
  rw [computeMarginReport_eval ha hb hc (ne_of_lt hm1)]
  refine ⟨rfl, ?_, rfl⟩
  intro hsum
  rw [hsum]
  have h1m : (1 : ℚ) - m ≠ 0 := sub_ne_zero.mpr (by linarith)
  have heq : ((1 : ℚ) / (1 - m) - 1) * 100 = 100 * m / (1 - m) := by
    field_simp
    ring
  rw [heq]

/-- Witness for C8: at p = (1/3, 1/3, 1/3) and margin 0.12 the implied
probability sum is 25/22. -/
theorem C8_implied_sum_closed_form_witness :
    (computeMarginReport (applyHouseMargin
      (computeFairOdds (PyVec3.ofRat (1/3) (1/3) (1/3))) (12/100))).implied_prob_sum =
      .fin (25/22) := by
  have h := (C8_implied_sum_closed_form (1/3) (1/3) (1/3) (12/100)
    (by norm_num) (by norm_num) (by norm_num) (by norm_num) (by norm_num)).1
  rw [h]
  norm_num

/-- C9: an unresolved home team fails with the unknown-team error whose
suggestion list is the first 3 registry teams whose lowercased name
contains the lowercased query as a contiguous substring; at most 3
suggestions are carried, every suggestion is a matching registry team, and
every matching registry team enters the pre-truncation list. -/
theorem C9_unknown_team_suggestions (api : NeuralNetworkAPI)
    (home away division : String) (p : PyVec3) (m : ℚ)
    (hl : api.is_loaded = true)
    (hh : api.team_mapping.lookup home = none) :
    predict api home away division p m =
      .error (.unknownHomeTeam home
        ((find_similar_teams api.available_teams home).take 3)) ∧
    ((find_similar_teams api.available_teams home).take 3).length ≤ 3 ∧
    (∀ t, t ∈ (find_similar_teams api.available_teams home).take 3 →
      t ∈ api.available_teams ∧ ∃ l r, lowerChars t = l ++ lowerChars home ++ r) ∧
    (∀ t, t ∈ api.available_teams →
      (∃ l r, lowerChars t = l ++ lowerChars home ++ r) →
      t ∈ find_similar_teams api.available_teams home) := by
  refine ⟨predict_eq_unknownHome api home away division p m hl hh,
    List.length_take_le _ _, ?_, ?_⟩
  · intro t ht
    have ht2 : t ∈ find_similar_teams api.available_teams home :=
      List.mem_of_mem_take ht
    rw [find_similar_teams_eq_filter] at ht2
    have hmem := List.mem_filter.mp ht2
    exact ⟨hmem.1, (listHasSub_iff _ _).mp hmem.2⟩
  · intro t ht hsub
    rw [find_similar_teams_eq_filter]
    exact List.mem_filter.mpr ⟨ht, (listHasSub_iff _ _).mpr hsub⟩

/-- Witness for C9: the unresolved query "Madrid" is suggested
"Real Madrid" by case-insensitive substring match. -/
theorem C9_unknown_team_suggestions_witness :
    predict sampleApi "Madrid" "Barcelona" "SP1"
        (PyVec3.ofRat (1/3) (1/3) (1/3)) (12/100) =
      .error (.unknownHomeTeam "Madrid" ["Real Madrid"]) :=
  (C9_unknown_team_suggestions sampleApi "Madrid" "Barcelona" "SP1"
    (PyVec3.ofRat (1/3) (1/3) (1/3)) (12/100) rfl rfl).1

/-- C10 counterexample: with eleven registered divisions, the
unknown-division error carries only the first ten codes, not the full
registry key list as claimed. -/
theorem C10_counterexample :
    predict elevenDivApi "Real Madrid" "Barcelona" "XX"
        (PyVec3.ofRat (1/3) (1/3) (1/3)) (12/100) =
      .error (.unknownDivision "XX"
        ["D01", "D02", "D03", "D04", "D05", "D06", "D07", "D08", "D09", "D10"]) ∧
    (elevenDivApi.division_mapping.map Prod.fst).length = 11 ∧
    ["D01", "D02", "D03", "D04", "D05", "D06", "D07", "D08", "D09", "D10"] ≠
      elevenDivApi.division_mapping.map Prod.fst := by
  refine ⟨rfl, rfl, ?_⟩
  intro h
  simpa [elevenDivApi] using congrArg List.length h

/-- C10 (amended): an unresolved division fails with the unknown-division
error carrying the first 10 registry key codes — `predict` itself
truncates the list to 10, so the full list is carried exactly when the
registry has at most 10 divisions. -/
theorem C10_unknown_division_truncated (api : NeuralNetworkAPI)
    (home away division : String) (p : PyVec3) (m : ℚ)
    (hl : api.is_loaded = true)
    (hh : api.team_mapping.lookup home ≠ none)
    (ha : api.team_mapping.lookup away ≠ none)
    (hd : api.division_mapping.lookup division = none) :
    predict api home away division p m =
      .error (.unknownDivision division
        ((api.division_mapping.map Prod.fst).take 10)) ∧
    (api.division_mapping.length ≤ 10 →
      (api.division_mapping.map Prod.fst).take 10 =
        api.division_mapping.map Prod.fst) := by
  refine ⟨predict_eq_unknownDivision api home away division p m hl hh ha hd, ?_⟩
  intro hlen
  apply List.take_of_length_le
  simpa using hlen

/-- Witness for C10 (amended): with the single-division registry the error
carries the full (one-element) code list. -/
theorem C10_unknown_division_truncated_witness :
    predict sampleApi "Real Madrid" "Barcelona" "XX"
        (PyVec3.ofRat (1/3) (1/3) (1/3)) (12/100) =
      .error (.unknownDivision "XX" ["SP1"]) :=
  (C10_unknown_division_truncated sampleApi "Real Madrid" "Barcelona" "XX"
    (PyVec3.ofRat (1/3) (1/3) (1/3)) (12/100) rfl (by decide) (by decide) rfl).1

end Apuestas
